import Mathlib

/-!
Shallow embedding of the email_checker repository (src/receive.py and
src/alerts.py) and verification of its specification claims.

The embedding follows the source line by line:

* The three regular expressions (`_theme_re`, `_assignee_re`,
  `_merge_done_re`) are hand-compiled into executable matching functions
  that reproduce the Python `re` backtracking semantics for these concrete
  patterns (leading greedy `.*` or `.+` means the rightmost viable start
  position wins; a greedy `[^<]+`, `\d+` or `\s*` run cannot backtrack
  because the character that follows it in the pattern can never occur
  inside the run).  `re.Pattern.match` anchors the pattern at the start of
  the line, and `_search_re` and `_get_theme` apply it to each piece of
  `text.split` on a newline.  `\s` and `\d` are modelled by their ASCII
  ranges, the only ones the alert mails contain.
* `AssigneeAlert.get_result`, `MergeDoneAlert.get_result` and
  `MailParser.parse` are translated directly; the Python rendering of
  `None` inside an f-string is modelled by `pyStrTheme`.
* `Slack.send` wraps an external HTTP call; its outcome (2xx response,
  `HTTPError` for a non-2xx response, `URLError` for a network failure) is
  supplied by an oracle.  The `except HTTPError` clause catches exactly the
  `HTTPError` outcome; a `URLError` is not an `HTTPError` and propagates.
* `TextBlocksParser.parse` walks a MIME message.  A Python `Message` whose
  payload is a list is exactly a multipart message, so the model type
  `PyMessage` has a `leaf` constructor (non-multipart: `get_payload()`
  returns a str) and a `multipart` constructor (`get_payload()` returns the
  child messages).  The queue entries are `PyObj`s because the source puts
  `msg.get_payload()` itself - a str for a non-multipart message - into the
  queue; calling `get_content_maintype` on a str raises `AttributeError`.
  Charset decoding (`bytes.decode(charset, "replace")`) is an external
  codec call supplied as an oracle `decode`.
* `main` is modelled by `mainLoop`/`mainRun` over oracles for
  `server.fetch` (`none` models an exception, caught by the
  `except Exception` around the fetch) and the Slack HTTP outcome.  The
  run result records the value passed to `UIDKeeper.save_uid`, the uids
  whose fetch was attempted, and the texts handed to `slack.send`; an
  uncaught exception (`Except.error`) aborts the run before `save_uid`.
* `UIDKeeper.save_uid` opens its file with mode "w+" (truncating) and then
  writes the decimal digits; `UIDKeeper.save_uid_crash` gives the file
  content observable if the process stops after a given number of
  primitive steps (step 0 = before the open, step 1 = after the truncating
  open, step 1+k = after k characters have been written).
-/

/-- ASCII approximation of the whitespace class of the Python pattern. -/
def pyIsSpace (c : Char) : Bool :=
  c = ' ' || c = '\t' || c = '\n' || c = '\r' || c = '\x0b' || c = '\x0c'

/-- ASCII decimal digit, the class matched by the patterns of the alerts. -/
def isAsciiDigit (c : Char) : Bool :=
  '0' ≤ c && c ≤ '9'

/-- Remove a literal from the front of a character list, or fail. -/
def stripLit : List Char → List Char → Option (List Char)
  | [], s => some s
  | _ :: _, [] => none
  | c :: l, d :: s => if c = d then stripLit l s else none

/-- Python `text.split` on a newline: non-collapsing split, so an empty
text gives one empty piece and adjacent newlines give empty pieces. -/
def splitNl : List Char → List (List Char)
  | [] => [[]]
  | c :: cs =>
    if c = '\n' then
      [] :: splitNl cs
    else
      match splitNl cs with
      | [] => [[c]]
      | l :: ls => (c :: l) :: ls

/-- Python `text.startswith(lit)`. -/
def pyStartsWith (text : String) (lit : List Char) : Bool :=
  (stripLit lit text.data).isSome

/-- The literal prefix `main` requires of a fragment before matching. -/
def htmlLit : List Char := "<html".data

/-- Literal head of `_theme_re`: everything of the pattern before the first
group is literal text. -/
def themeLit : List Char := "<b>Тема:</b> Re: omd-dwh | ".data

/-- Literal "(!" following the first group of `_theme_re`. -/
def openBangLit : List Char := "(!".data

/-- Attempt the tail of `_theme_re` with the first group bound to the first
`k` characters of `rest`: after the group, greedily skip whitespace, then
require the literal "(!", a nonempty greedy digit run, and a closing
parenthesis; the final `.*` accepts anything. -/
def themeAt (rest : List Char) (k : Nat) : Option (List Char × List Char) :=
  let r := (rest.drop k).dropWhile pyIsSpace
  match stripLit openBangLit r with
  | none => none
  | some r2 =>
    let ds := r2.takeWhile isAsciiDigit
    match ds, r2.drop ds.length with
    | [], _ => none
    | _ :: _, c :: _ => if c = ')' then some (rest.take k, ds) else none
    | _ :: _, [] => none

/-- Greedy search for the group split of `_theme_re`: the group `(.+)` tries
the longest prefix first. -/
def themeSearch (rest : List Char) : Nat → Option (List Char × List Char)
  | 0 => none
  | k + 1 =>
    match themeAt rest (k + 1) with
    | some r => some r
    | none => themeSearch rest k

/-- One application of `_theme_re.match` to a single line: the pattern is
anchored, so the line must begin with the literal prefix; on success the
captured groups (title, merge-request id) are returned. -/
def themeMatchLine (line : List Char) : Option (List Char × List Char) :=
  match stripLit themeLit line with
  | none => none
  | some rest => themeSearch rest rest.length

/-- Literal of `_assignee_re` before the first group. -/
def assigneeLitA : List Char := "<p>Assignee changed from <strong>".data

/-- Literal of `_assignee_re` between the two groups. -/
def assigneeLitB : List Char := "</strong> to <strong>".data

/-- Literal of `_assignee_re` after the second group. -/
def strongCloseLit : List Char := "</strong>".data

/-- Attempt `_assignee_re` with its leading `.*` consuming everything before
`s`: the two `[^<]+` groups are greedy maximal runs of characters other
than "<" and cannot backtrack, because the literal after each one starts
with "<". -/
def assigneeAt (s : List Char) : Option (List Char × List Char) :=
  match stripLit assigneeLitA s with
  | none => none
  | some r1 =>
    let g1 := r1.takeWhile (fun c => c ≠ '<')
    match g1, stripLit assigneeLitB (r1.drop g1.length) with
    | [], _ => none
    | _ :: _, none => none
    | _ :: _, some r2 =>
      let g2 := r2.takeWhile (fun c => c ≠ '<')
      match g2, stripLit strongCloseLit (r2.drop g2.length) with
      | [], _ => none
      | _ :: _, none => none
      | _ :: _, some _ => some (g1, g2)

/-- Backtracking of a leading greedy `.*`: try the start positions of the
rest of the pattern from the rightmost one down to the start of the line. -/
def scanDown {α : Type} (f : List Char → Option α) (s : List Char) : Nat → Option α
  | 0 => f s
  | i + 1 =>
    match f (s.drop (i + 1)) with
    | some r => some r
    | none => scanDown f s i

/-- One application of `_assignee_re.match` to a single line. -/
def assigneeMatchLine (line : List Char) : Option (List Char × List Char) :=
  scanDown assigneeAt line line.length

/-- Literal of `_merge_done_re` before its group. -/
def mergeLitA : List Char := "Merge Request !".data

/-- Literal of `_merge_done_re` after its group. -/
def mergeLitB : List Char := " was merged".data

/-- Attempt `_merge_done_re` with its leading `.+` consuming everything
before `s`; the trailing `.+` requires at least one remaining character. -/
def mergeAt (s : List Char) : Option (List Char) :=
  match stripLit mergeLitA s with
  | none => none
  | some r1 =>
    let ds := r1.takeWhile isAsciiDigit
    match ds, stripLit mergeLitB (r1.drop ds.length) with
    | [], _ => none
    | _ :: _, none => none
    | _ :: _, some r2 =>
      match r2 with
      | [] => none
      | _ :: _ => some ds

/-- Backtracking of a leading greedy `.+`: like `scanDown`, but the start
position 0 is excluded because `.+` must consume at least one character. -/
def scanDownPos {α : Type} (f : List Char → Option α) (s : List Char) : Nat → Option α
  | 0 => none
  | i + 1 =>
    match f (s.drop (i + 1)) with
    | some r => some r
    | none => scanDownPos f s i

/-- One application of `_merge_done_re.match` to a single line. -/
def mergeMatchLine (line : List Char) : Option (List Char) :=
  scanDownPos mergeAt line line.length

/-- Python `regexp.match` applied to each line in turn, returning the first
match (`Alert._search_re` and the loop of `Alert._get_theme`). -/
def searchLines {α : Type} (ml : List Char → Option α) : List (List Char) → Option α
  | [] => none
  | l :: ls =>
    match ml l with
    | some m => some m
    | none => searchLines ml ls

/-- `Alert._search_re`: try the pattern on every line of the text, first
match wins. -/
def Alert.search_re {α : Type} (ml : List Char → Option α) (text : String) : Option α :=
  searchLines ml (splitNl text.data)

/-- `Alert._get_rm_link`: fixed URL template for a merge-request id. -/
def Alert.get_rm_link (mrId : String) : String :=
  "https://gitlab.omd.ru/dwh/omd-dwh/merge_requests/" ++ mrId

/-- `Alert._get_theme`: first line matching `_theme_re` gives the title and
the rendered link; `none` models the Python return value (None, None). -/
def Alert.get_theme (text : String) : Option (String × String) :=
  match Alert.search_re themeMatchLine text with
  | none => none
  | some (t, n) => some (t.asString, Alert.get_rm_link n.asString)

/-- Rendering of the theme pair inside a Python f-string: a missing theme
prints as "None None". -/
def pyStrTheme : Option (String × String) → String × String
  | none => ("None", "None")
  | some pr => pr

/-- `AssigneeAlert._target`. -/
def AssigneeAlert.target : String := "Petrov Vladimir"

/-- The f-string of `AssigneeAlert.get_result`. -/
def assigneeFormat (theme : Option (String × String)) (a b : String) : String :=
  let pr := pyStrTheme theme
  pr.1 ++ " " ++ pr.2 ++ " Assignee changed from *" ++ a ++ "* to *" ++ b ++ "*"

/-- `AssigneeAlert.get_result`: search the lines with `_assignee_re`; if the
target name is in neither group, return None; else format the theme and
both captured names. -/
def AssigneeAlert.get_result (text : String) : Option String :=
  match Alert.search_re assigneeMatchLine text with
  | none => none
  | some (a, b) =>
    if AssigneeAlert.target ≠ a.asString ∧ AssigneeAlert.target ≠ b.asString then
      none
    else
      some (assigneeFormat (Alert.get_theme text) a.asString b.asString)

/-- `MergeDoneAlert.get_result`: search the lines with `_merge_done_re`; on
a match, format the theme. -/
def MergeDoneAlert.get_result (text : String) : Option String :=
  match Alert.search_re mergeMatchLine text with
  | none => none
  | some _ =>
    let pr := pyStrTheme (Alert.get_theme text)
    some ("Merged " ++ pr.1 ++ " " ++ pr.2)

/-- The closed set of alert groups of `MailParser._MAILS`. -/
inductive AlertGroup : Type where
  | assigneeAlert : AlertGroup
  | mergeDoneAlert : AlertGroup

/-- Dynamic dispatch of `group.get_result`. -/
def AlertGroup.get_result : AlertGroup → String → Option String
  | .assigneeAlert, t => AssigneeAlert.get_result t
  | .mergeDoneAlert, t => MergeDoneAlert.get_result t

/-- `MailParser._MAILS`: the fixed priority order of the matchers. -/
def MailParser.MAILS : List AlertGroup :=
  [.assigneeAlert, .mergeDoneAlert]

/-- The loop body of `MailParser.parse`: first non-None result wins. -/
def firstResult (text : String) : List AlertGroup → Option String
  | [] => none
  | g :: gs =>
    match g.get_result text with
    | some r => some r
    | none => firstResult text gs

/-- `MailParser.parse`. -/
def MailParser.parse (text : String) : Option String :=
  firstResult text MailParser.MAILS

/-- Exceptions of the embedded code that can propagate to `main`. -/
inductive PyExn : Type where
  | attributeError : PyExn
  | urlError : PyExn
deriving DecidableEq

/-- Outcome of the HTTP POST performed by `urlopen` inside `Slack.send`:
a 2xx response, an `HTTPError` raised for a non-2xx status, or a
`URLError` raised for a network-level failure. -/
inductive SendOutcome : Type where
  | success2xx : SendOutcome
  | httpError : SendOutcome
  | urlError : SendOutcome
deriving DecidableEq

/-- `Slack.send`: the try block performs the POST; `except HTTPError`
catches exactly the `HTTPError` outcome and logs it.  `URLError` is not a
subclass of `HTTPError` (the inclusion goes the other way), so a network
failure escapes the except clause and propagates to the caller. -/
def Slack.send (world : String → SendOutcome) (message : String) : Except PyExn Unit :=
  match world message with
  | .success2xx => .ok ()
  | .httpError => .ok ()
  | .urlError => .error .urlError

/-- A parsed mail message as built by `email.message_from_string`: the
payload is a list of child messages exactly when the message is multipart
(`get_content_maintype` is "multipart"); otherwise `get_payload()` returns
the body as a str, whose transfer-decoded bytes `get_payload(decode=True)`
would return are carried here together with the charset parameter. -/
inductive PyMessage : Type where
  | leaf (maintype : String) (charset : Option String) (body : List Nat) : PyMessage
  | multipart (children : List PyMessage) : PyMessage

mutual

/-- Number of nodes of a message tree. -/
def PyMessage.size : PyMessage → Nat
  | .leaf _ _ _ => 1
  | .multipart cs => 1 + PyMessage.sizeList cs

/-- Number of nodes of a list of message trees. -/
def PyMessage.sizeList : List PyMessage → Nat
  | [] => 0
  | m :: ms => PyMessage.size m + PyMessage.sizeList ms

end

/-- A value held in the walker queue of `TextBlocksParser.parse`.  The
queue is annotated `List` of `Message` in the source, but for a
non-multipart message the code enqueues `msg.get_payload()`, which is a
str, so the model keeps both possibilities. -/
inductive PyObj : Type where
  | pystr (body : List Nat) : PyObj
  | pymsg (m : PyMessage) : PyObj

/-- Size of a queue object, for termination of the walker. -/
def PyObj.size : PyObj → Nat
  | .pystr _ => 1
  | .pymsg m => m.size

/-- Size of the whole walker queue. -/
def queueSize : List (String × PyObj) → Nat
  | [] => 0
  | e :: q => e.2.size + queueSize q

/-- The list comprehension enqueuing the children of a multipart part with
paths `path.i`, `i` counted from 1 (`enumerate(messages, 1)`). -/
def childEntries (path : String) : Nat → List PyMessage → List (String × PyObj)
  | _, [] => []
  | i, c :: cs => (path ++ "." ++ toString i, PyObj.pymsg c) :: childEntries path (i + 1) cs

/-- The list comprehension seeding the queue with the root parts, paths
`str(i)` counted from 1. -/
def rootEntries : Nat → List PyObj → List (String × PyObj)
  | _, [] => []
  | i, o :: os => (toString i, o) :: rootEntries (i + 1) os

/-- The while loop of `TextBlocksParser.parse`: pop the front of the queue;
a str in the queue raises `AttributeError` at the call
`part.get_content_maintype()`; a text part yields its decoded payload; a
multipart part enqueues its children at the end of the queue.  The result
is the list of yielded fragments followed by the exception the generator
raises, if any. -/
def walk (decode : List Nat → String → String) (queue : List (String × PyObj)) :
    List (String × String) × Option PyExn :=
  match queue with
  | [] => ([], none)
  | (_, .pystr _) :: _ => ([], some PyExn.attributeError)
  | (path, .pymsg (.leaf maintype charset body)) :: rest =>
    if maintype = "text" then
      ((path, decode body (charset.getD "utf-8")) :: (walk decode rest).1,
        (walk decode rest).2)
    else
      walk decode rest
  | (path, .pymsg (.multipart children)) :: rest =>
    walk decode (rest ++ childEntries path 1 children)
termination_by queueSize queue
decreasing_by
  all_goals
    (have happ : ∀ (a b : List (String × PyObj)),
        queueSize (a ++ b) = queueSize a + queueSize b := by
      intro a b
      induction a with
      | nil => simp [queueSize]
      | cons e a ih => simp [queueSize, ih]; omega
     have hch : ∀ (q : String) (i : Nat) (cs : List PyMessage),
        queueSize (childEntries q i cs) = PyMessage.sizeList cs := by
      intro q i cs
      induction cs generalizing i with
      | nil => simp [childEntries, queueSize, PyMessage.sizeList]
      | cons c cs ih =>
        simp [childEntries, queueSize, PyObj.size, PyMessage.sizeList, ih]
     simp [happ, hch, queueSize, PyObj.size, PyMessage.size]
     try omega)

/-- `TextBlocksParser.parse`: seed the queue with `[payload]` when the
message is not multipart (the payload then is a str!), else with the child
messages, and run the while loop. -/
def TextBlocksParser.parse (decode : List Nat → String → String) (msg : PyMessage) :
    List (String × String) × Option PyExn :=
  match msg with
  | .leaf _ _ body => walk decode (rootEntries 1 [PyObj.pystr body])
  | .multipart children => walk decode (rootEntries 1 (children.map PyObj.pymsg))

/-- Decimal digits written by `UIDKeeper.save_uid`. -/
def UIDKeeper.save_uid_digits (uid : Nat) : List Char :=
  (toString uid).data

/-- File content observable if the process stops after `steps` primitive
steps of `UIDKeeper.save_uid`: step 0 is before the call opens the file;
the first step is `open(..., "w+")`, which truncates the file in place; each
later step writes one character of `str(uid)` left to right. -/
def UIDKeeper.save_uid_crash (old : List Char) (uid : Nat) (steps : Nat) : List Char :=
  match steps with
  | 0 => old
  | k + 1 => (UIDKeeper.save_uid_digits uid).take k

/-- The fragment loop inside `main`: skip fragments whose text does not
start with "<html"; run `MailParser.parse`; on a truthy (non-None,
nonempty) result call `slack.send`.  The returned list collects the texts
handed to `slack.send`; an exception escaping `send` aborts the loop.  The
debug log line and the dump of the fragment to an html file are outside
the model. -/
def processFrags (world : String → SendOutcome) :
    List (String × String) → Except PyExn (List String)
  | [] => .ok []
  | (_, text) :: rest =>
    if pyStartsWith text htmlLit then
      match MailParser.parse text with
      | some r =>
        if r = "" then
          processFrags world rest
        else
          match Slack.send world r with
          | .ok _ => (processFrags world rest).map (fun l => r :: l)
          | .error e => .error e
      | none => processFrags world rest
    else
      processFrags world rest

/-- Processing of one fetched message in `main`: iterate over the fragments
the generator yields; if the generator raises after its last fragment, the
exception propagates (the only raising generator here raises before any
fragment). -/
def processMessage (world : String → SendOutcome)
    (pr : List (String × String) × Option PyExn) : Except PyExn (List String) :=
  match processFrags world pr.1 with
  | .error e => .error e
  | .ok l =>
    match pr.2 with
    | some e => .error e
    | none => .ok l

/-- The uid loop of `main`: skip uids at or below the watermark, advance
the watermark candidate before the fetch, catch any fetch exception and
continue, process the fetched message.  The result carries the final
watermark candidate, the uids whose fetch was attempted, and the texts
handed to `slack.send`; `Except.error` is an exception that aborts the
run. -/
def mainLoop (world : String → SendOutcome) (decode : List Nat → String → String)
    (fetch : Nat → Option PyMessage) :
    Nat → List Nat → Except PyExn (Nat × List Nat × List String)
  | maxUid, [] => .ok (maxUid, [], [])
  | maxUid, uid :: rest =>
    if uid ≤ maxUid then
      mainLoop world decode fetch maxUid rest
    else
      match fetch uid with
      | none =>
        (mainLoop world decode fetch uid rest).map (fun r => (r.1, uid :: r.2.1, r.2.2))
      | some msg =>
        match processMessage world (TextBlocksParser.parse decode msg) with
        | .error e => .error e
        | .ok snt =>
          (mainLoop world decode fetch uid rest).map
            (fun r => (r.1, uid :: r.2.1, snt ++ r.2.2))

/-- `main`, given the stored watermark (`UIDKeeper.get_uid`) and the uid
batch the server listed: on `Except.ok (m, attempted, sent)` the run
completed and `UIDKeeper.save_uid m` ran; on `Except.error` the exception
aborted the run before `save_uid`. -/
def mainRun (world : String → SendOutcome) (decode : List Nat → String → String)
    (fetch : Nat → Option PyMessage) (maxUid0 : Nat) (uids : List Nat) :
    Except PyExn (Nat × List Nat × List String) :=
  mainLoop world decode fetch maxUid0 uids

/-- The notifications `main` dispatches for a fragment list: one per
fragment whose text starts with "<html" and whose matcher run returns a
truthy result. -/
def dispatchedNotifs (frags : List (String × String)) : List String :=
  frags.filterMap (fun pt =>
    if pyStartsWith pt.2 htmlLit then
      match MailParser.parse pt.2 with
      | some r => if r = "" then none else some r
      | none => none
    else
      none)

/-- Webhook oracle: every POST gets a 2xx response. -/
def cWorldOk : String → SendOutcome := fun _ => SendOutcome.success2xx

/-- Webhook oracle: every POST gets a non-2xx response (`HTTPError`). -/
def cWorldHttp : String → SendOutcome := fun _ => SendOutcome.httpError

/-- Webhook oracle: every POST fails at network level (`URLError`). -/
def cWorldBad : String → SendOutcome := fun _ => SendOutcome.urlError

/-- Codec oracle that decodes every payload to the empty string. -/
def cDecode0 : List Nat → String → String := fun _ _ => ""

/-- An html fragment text containing a theme line and a merge-done line. -/
def cHtmlText : String :=
  "<html>\n<b>Тема:</b> Re: omd-dwh | T(!1)\nxMerge Request !1 was mergedx"

/-- Codec oracle that decodes every payload to `cHtmlText`. -/
def cDecode1 : List Nat → String → String := fun _ _ => cHtmlText

/-- A multipart message with two text parts. -/
def cMsg1 : PyMessage :=
  PyMessage.multipart [PyMessage.leaf "text" none [1], PyMessage.leaf "text" none [2]]

/-- Fetch oracle: uid 1 yields `cMsg1`, every other fetch raises. -/
def cFetch1 : Nat → Option PyMessage := fun uid => if uid = 1 then some cMsg1 else none

/-- The notification the merge-done matcher produces for `cHtmlText`. -/
def cNotif1 : String := "Merged T https://gitlab.omd.ru/dwh/omd-dwh/merge_requests/1"

/-- Fetch oracle: uid 105 yields an empty multipart message, every other
fetch (in particular uid 101) raises. -/
def cFetch3 : Nat → Option PyMessage :=
  fun uid => if uid = 105 then some (PyMessage.multipart []) else none

/-- Fetch oracle: every fetch raises. -/
def cFetchNone : Nat → Option PyMessage := fun _ => none

/-- Fetch oracle: uid 7 yields a non-multipart text message. -/
def cFetch4 : Nat → Option PyMessage :=
  fun uid =>
    if uid = 7 then some (PyMessage.leaf "text" (some "utf-8") [104, 105]) else none

/-- A text hit by both matchers: a theme line, an assignee line involving
the target, and a merge-done line. -/
def cBothText : String :=
  "<b>Тема:</b> Re: omd-dwh | T(!5)\n<p>Assignee changed from <strong>A</strong> to <strong>Petrov Vladimir</strong>\nxMerge Request !5 was mergedx"

/-- The assignee notification for `cBothText`. -/
def cNotifA : String :=
  "T https://gitlab.omd.ru/dwh/omd-dwh/merge_requests/5 Assignee changed from *A* to *Petrov Vladimir*"

/-- The merge-done notification for `cBothText`. -/
def cNotifM : String := "Merged T https://gitlab.omd.ru/dwh/omd-dwh/merge_requests/5"

/-- A text whose first line is exactly the assignee-change line quoted by
the claim (no `<p>` before "Assignee"), plus a theme line for merge
request 42 titled "Fix pipeline". -/
def cBareAssigneeText : String :=
  "Assignee changed from <strong>Ivanov Petr</strong> to <strong>Petrov Vladimir</strong>\n<b>Тема:</b> Re: omd-dwh | Fix pipeline(!42)"

/-- Like `cBareAssigneeText` but with the `<p>` tag the pattern requires. -/
def cGoodAssigneeText : String :=
  "<b>Тема:</b> Re: omd-dwh | Fix pipeline(!42)\n<p>Assignee changed from <strong>Ivanov Petr</strong> to <strong>Petrov Vladimir</strong>"

/-- The notification the claim expects for the merge request 42 example. -/
def cAssigneeNotif : String :=
  "Fix pipeline https://gitlab.omd.ru/dwh/omd-dwh/merge_requests/42 Assignee changed from *Ivanov Petr* to *Petrov Vladimir*"

/-- A line in which the assignee construct begins only at position 2. -/
def cMidLine : String :=
  "zz<p>Assignee changed from <strong>Petrov Vladimir</strong> to <strong>Bo</strong>"

/-- A line matching the theme pattern. -/
def cThemeLine : String := "<b>Тема:</b> Re: omd-dwh | T(!5)"

/-- A line matching the assignee pattern at position 0. -/
def cPLine : String :=
  "<p>Assignee changed from <strong>A</strong> to <strong>Petrov Vladimir</strong>"

/-- A fragment text the merge-done matcher hits that does not start with
the "<html" prefix. -/
def cNoHtmlText : String := "xMerge Request !3 was mergedx"

/-! Helper lemmas: evaluation of the walker queue and general facts about
the matching combinators. -/

theorem walk_nil (d : List Nat → String → String) : walk d [] = ([], none) := by
  simp [walk]

theorem walk_pystr (d : List Nat → String → String) (p : String) (b : List Nat)
    (q : List (String × PyObj)) :
    walk d ((p, PyObj.pystr b) :: q) = ([], some PyExn.attributeError) := by
  rw [walk.eq_def]

theorem walk_text (d : List Nat → String → String) (p : String) (cs : Option String)
    (b : List Nat) (q : List (String × PyObj)) :
    walk d ((p, PyObj.pymsg (PyMessage.leaf "text" cs b)) :: q) =
      ((p, d b (cs.getD "utf-8")) :: (walk d q).1, (walk d q).2) := by
  rw [walk.eq_def]
  simp

theorem walk_multi (d : List Nat → String → String) (p : String)
    (cs : List PyMessage) (q : List (String × PyObj)) :
    walk d ((p, PyObj.pymsg (PyMessage.multipart cs)) :: q) =
      walk d (q ++ childEntries p 1 cs) := by
  rw [walk.eq_def]

theorem parse_leaf (d : List Nat → String → String) (mt : String)
    (cs : Option String) (b : List Nat) :
    TextBlocksParser.parse d (PyMessage.leaf mt cs b) =
      ([], some PyExn.attributeError) := by
  simp only [TextBlocksParser.parse, rootEntries]
  exact walk_pystr d (toString 1) b []

theorem parse_mpnil (d : List Nat → String → String) :
    TextBlocksParser.parse d (PyMessage.multipart []) = ([], none) := by
  simp only [TextBlocksParser.parse, List.map, rootEntries]
  exact walk_nil d

theorem parse_cMsg1 :
    TextBlocksParser.parse cDecode1 cMsg1 = ([("1", cHtmlText), ("2", cHtmlText)], none) := by
  show walk cDecode1 (rootEntries 1 (List.map PyObj.pymsg
    [PyMessage.leaf "text" none [1], PyMessage.leaf "text" none [2]])) = _
  rw [show rootEntries 1 (List.map PyObj.pymsg
      [PyMessage.leaf "text" none [1], PyMessage.leaf "text" none [2]]) =
    [("1", PyObj.pymsg (PyMessage.leaf "text" none [1])),
     ("2", PyObj.pymsg (PyMessage.leaf "text" none [2]))] from rfl]
  rw [walk_text, walk_text, walk_nil]
  rfl

theorem stripLit_append (l : List Char) :
    ∀ (s r : List Char), stripLit l s = some r → s = l ++ r := by
  induction l with
  | nil =>
    intro s r h
    simp [stripLit] at h
    simp [h]
  | cons c l ih =>
    intro s r h
    match s with
    | [] => simp [stripLit] at h
    | d :: s =>
      by_cases hc : c = d
      · subst hc
        simp [stripLit] at h
        simp [ih s r h]
      · simp [stripLit, hc] at h

theorem searchLines_mem {α : Type} (ml : List Char → Option α) :
    ∀ (ls : List (List Char)) (r : α), searchLines ml ls = some r →
      ∃ l, l ∈ ls ∧ ml l = some r := by
  intro ls
  induction ls with
  | nil => intro r h; simp [searchLines] at h
  | cons l ls ih =>
    intro r h
    cases hl : ml l with
    | some m =>
      refine ⟨l, List.mem_cons_self l ls, ?_⟩
      simp [searchLines, hl] at h
      rw [hl, h]
    | none =>
      simp [searchLines, hl] at h
      obtain ⟨l2, hmem, hm⟩ := ih r h
      exact ⟨l2, List.mem_cons_of_mem l hmem, hm⟩

theorem scanDown_some {α : Type} (f : List Char → Option α) (s : List Char) :
    ∀ (n : Nat) (r : α), scanDown f s n = some r →
      ∃ i, i ≤ n ∧ f (s.drop i) = some r := by
  intro n
  induction n with
  | zero =>
    intro r h
    exact ⟨0, Nat.le_refl 0, by simpa [scanDown] using h⟩
  | succ n ih =>
    intro r h
    cases hf : f (s.drop (n + 1)) with
    | some m =>
      simp [scanDown, hf] at h
      exact ⟨n + 1, Nat.le_refl _, by rw [hf, h]⟩
    | none =>
      simp [scanDown, hf] at h
      obtain ⟨i, hi, hr⟩ := ih r h
      exact ⟨i, Nat.le_succ_of_le hi, hr⟩

theorem scanDown_isSome_of {α : Type} (f : List Char → Option α) (s : List Char) :
    ∀ (n i : Nat) (r : α), i ≤ n → f (s.drop i) = some r →
      (scanDown f s n).isSome = true := by
  intro n
  induction n with
  | zero =>
    intro i r hi hr
    interval_cases i
    have hs : f s = some r := by rw [List.drop_zero] at hr; exact hr
    simp [scanDown, hs]
  | succ n ih =>
    intro i r hi hr
    cases hf : f (s.drop (n + 1)) with
    | some m => simp [scanDown, hf]
    | none =>
      have hne : i ≠ n + 1 := by
        intro he
        rw [he, hf] at hr
        exact Option.noConfusion hr
      have hle : i ≤ n := Nat.lt_succ_iff.mp (Nat.lt_of_le_of_ne hi hne)
      simp [scanDown, hf]
      exact ih i r hle hr

theorem drop_len_add {α : Type} (a : List α) :
    ∀ (b : List α) (i : Nat), (a ++ b).drop (a.length + i) = b.drop i := by
  induction a with
  | nil => intro b i; simp
  | cons x a ih =>
    intro b i
    simp only [List.cons_append, List.length_cons, Nat.succ_add, List.drop_succ_cons]
    exact ih b i

theorem processFrags_ok (world : String → SendOutcome)
    (h : ∀ t, world t ≠ SendOutcome.urlError) :
    ∀ (frags : List (String × String)),
      processFrags world frags = Except.ok (dispatchedNotifs frags) := by
  intro frags
  induction frags with
  | nil => simp [processFrags, dispatchedNotifs]
  | cons pt rest ih =>
    obtain ⟨p, text⟩ := pt
    by_cases hh : pyStartsWith text htmlLit
    · cases hp : MailParser.parse text with
      | some r =>
        by_cases hr : r = ""
        · simp [processFrags, dispatchedNotifs, hh, hp, hr, ih]
        · have hsend : Slack.send world r = Except.ok () := by
            cases hw : world r with
            | success2xx => simp [Slack.send, hw]
            | httpError => simp [Slack.send, hw]
            | urlError => exact absurd hw (h r)
          simp [processFrags, dispatchedNotifs, hh, hp, hr, hsend, ih, Except.map]
      | none => simp [processFrags, dispatchedNotifs, hh, hp, ih]
    · simp [processFrags, dispatchedNotifs, hh, ih]

theorem processFrags_filter (world : String → SendOutcome) :
    ∀ (frags : List (String × String)),
      processFrags world frags =
        processFrags world (frags.filter (fun pt => pyStartsWith pt.2 htmlLit)) := by
  intro frags
  induction frags with
  | nil => simp
  | cons pt rest ih =>
    obtain ⟨p, text⟩ := pt
    by_cases hh : pyStartsWith text htmlLit
    · have hfc : List.filter (fun pt => pyStartsWith pt.2 htmlLit) ((p, text) :: rest) =
          (p, text) :: List.filter (fun pt => pyStartsWith pt.2 htmlLit) rest := by
        simp [List.filter_cons, hh]
      rw [hfc]
      rw [processFrags, processFrags]
      simp only [hh, if_true]
      cases hp : MailParser.parse text with
      | some r =>
        by_cases hr : r = ""
        · simp only [hr, if_true, ih]
        · simp only [hr, if_false, ih]
      | none => exact ih
    · have hfc : List.filter (fun pt => pyStartsWith pt.2 htmlLit) ((p, text) :: rest) =
          List.filter (fun pt => pyStartsWith pt.2 htmlLit) rest := by
        simp [List.filter_cons, hh]
      rw [hfc]
      rw [processFrags]
      simp only [hh, if_false]
      exact ih

/-! Claim theorems. -/

/-- C6 counterexample: starting from stored value "100", stopping
`save_uid 105` right after the truncating open leaves the file empty,
which is neither the old value "100" nor the new value "105" - the write
is observable in a partial state. -/
theorem save_uid_crash_loses_old_value :
    ¬ (UIDKeeper.save_uid_crash "100".data 105 1 = "100".data ∨
       UIDKeeper.save_uid_crash "100".data 105 1 = UIDKeeper.save_uid_digits 105) := by
  decide

/-- C6 amended: `save_uid` is not atomic.  Only a failure before the
truncating open leaves the previously persisted value; a failure at any
later step leaves a (possibly empty) proper prefix of the new digits - in
particular the old value is already destroyed right after the open. -/
theorem save_uid_crash_behavior (old : List Char) (uid k : Nat) :
    UIDKeeper.save_uid_crash old uid 0 = old ∧
    UIDKeeper.save_uid_crash old uid 1 = [] ∧
    ∃ rest, UIDKeeper.save_uid_crash old uid (k + 1) ++ rest =
      UIDKeeper.save_uid_digits uid := by
  refine ⟨rfl, rfl, (UIDKeeper.save_uid_digits uid).take k |> fun _ =>
    (UIDKeeper.save_uid_digits uid).drop k, ?_⟩
  exact List.take_append_drop k _

/-- C7: matchers run in the fixed order of `MailParser._MAILS`
(assignee alert before merge-done alert); the first one returning a
non-None result wins and the later one is not consulted; with a None
result from the assignee alert the result is whatever the merge-done
alert returns.  Each fragment therefore yields at most one event. -/
theorem matcher_priority (text : String) :
    (∀ r, AssigneeAlert.get_result text = some r → MailParser.parse text = some r) ∧
    (AssigneeAlert.get_result text = none →
      MailParser.parse text = MergeDoneAlert.get_result text) := by
  constructor
  · intro r h
    simp [MailParser.parse, firstResult, MailParser.MAILS, AlertGroup.get_result, h]
  · intro h
    simp [MailParser.parse, firstResult, MailParser.MAILS, AlertGroup.get_result, h]
    cases MergeDoneAlert.get_result text <;> rfl

/-- C7 witness: on a text hit by both matchers, `MailParser.parse` returns
the assignee result, not the (different) merge-done result. -/
theorem matcher_priority_witness :
    AssigneeAlert.get_result cBothText = some cNotifA ∧
    MailParser.parse cBothText = some cNotifA ∧
    MergeDoneAlert.get_result cBothText = some cNotifM ∧
    cNotifA ≠ cNotifM := by
  have h : AssigneeAlert.get_result cBothText = some cNotifA := by decide
  exact ⟨h, (matcher_priority cBothText).1 cNotifA h, by decide, by decide⟩

/-- C8 counterexample: on a text whose line is exactly the quoted
assignee-change line - without a `<p>` before "Assignee" - plus a theme
line for merge request 42 titled "Fix pipeline", the assignee matcher
declines (its pattern requires the literal "<p>" immediately before
"Assignee changed"), so no notification is produced at all. -/
theorem assignee_example_without_p_tag_fails :
    AssigneeAlert.get_result cBareAssigneeText = none ∧
    MailParser.parse cBareAssigneeText = none := by
  decide

/-- C8 (amended): when the assignee pattern captures names A and B on some
line of the fragment, the matcher declines if neither name is the target,
and otherwise returns exactly the formatted string built from the theme of
the full text and both names. -/
theorem assignee_matcher_behavior (text : String) (a b : List Char)
    (h : Alert.search_re assigneeMatchLine text = some (a, b)) :
    ((a.asString ≠ AssigneeAlert.target ∧ b.asString ≠ AssigneeAlert.target) →
        AssigneeAlert.get_result text = none) ∧
    ((a.asString = AssigneeAlert.target ∨ b.asString = AssigneeAlert.target) →
        AssigneeAlert.get_result text =
          some (assigneeFormat (Alert.get_theme text) a.asString b.asString)) := by
  constructor
  · intro hc
    have hcond : AssigneeAlert.target ≠ a.asString ∧ AssigneeAlert.target ≠ b.asString :=
      ⟨fun he => hc.1 he.symm, fun he => hc.2 he.symm⟩
    simp [AssigneeAlert.get_result, h, hcond]
  · intro hc
    have hcond : ¬(AssigneeAlert.target ≠ a.asString ∧ AssigneeAlert.target ≠ b.asString) := by
      rcases hc with hc | hc
      · exact fun hn => hn.1 hc.symm
      · exact fun hn => hn.2 hc.symm
    simp [AssigneeAlert.get_result, h, hcond]

/-- C8 witness: with the `<p>` tag present, the merge request 42 example
produces exactly the notification text the claim quotes. -/
theorem assignee_matcher_behavior_witness :
    Alert.search_re assigneeMatchLine cGoodAssigneeText =
      some ("Ivanov Petr".data, "Petrov Vladimir".data) ∧
    AssigneeAlert.get_result cGoodAssigneeText = some cAssigneeNotif := by
  have h : Alert.search_re assigneeMatchLine cGoodAssigneeText =
      some ("Ivanov Petr".data, "Petrov Vladimir".data) := by decide
  refine ⟨h, ?_⟩
  have h2 := (assignee_matcher_behavior cGoodAssigneeText _ _ h).2 (Or.inr (by decide))
  rw [h2]
  decide

/-- C9 counterexample: in `cMidLine` the assignee construct begins only at
position 2 - the line does not start with the pattern literal - and the
matcher nevertheless matches, because `_assignee_re` begins with `.*`; the
full matcher then produces a notification ("None None" stands for the
absent theme). -/
theorem midline_match_counterexample :
    pyStartsWith cMidLine assigneeLitA = false ∧
    assigneeMatchLine cMidLine.data = some ("Petrov Vladimir".data, "Bo".data) ∧
    AssigneeAlert.get_result cMidLine =
      some "None None Assignee changed from *Petrov Vladimir* to *Bo*" := by
  decide

/-- C9 (amended): matching is attempted per single line (any match of the
assignee or merge-done search comes from one line of the newline split,
so no construct spanning a newline is matched), and the theme pattern is
anchored (a matching line literally starts with the fixed prefix); but the
assignee pattern begins with `.*`, so its construct still matches when
arbitrary junk precedes it on the line. -/
theorem line_matching_semantics :
    (∀ (text : String) (r : List Char × List Char),
        Alert.search_re assigneeMatchLine text = some r →
        ∃ l, l ∈ splitNl text.data ∧ assigneeMatchLine l = some r) ∧
    (∀ (text : String) (r : List Char),
        Alert.search_re mergeMatchLine text = some r →
        ∃ l, l ∈ splitNl text.data ∧ mergeMatchLine l = some r) ∧
    (∀ (line : List Char) (r : List Char × List Char),
        themeMatchLine line = some r → ∃ rest, line = themeLit ++ rest) ∧
    (∀ (junk line : List Char) (r : List Char × List Char),
        assigneeMatchLine line = some r →
        (assigneeMatchLine (junk ++ line)).isSome = true) := by
  refine ⟨?_, ?_, ?_, ?_⟩
  · intro text r h
    exact searchLines_mem _ _ r h
  · intro text r h
    exact searchLines_mem _ _ r h
  · intro line r h
    unfold themeMatchLine at h
    cases hs : stripLit themeLit line with
    | none => rw [hs] at h; exact absurd h (by simp)
    | some rest => exact ⟨rest, stripLit_append _ _ _ hs⟩
  · intro junk line r h
    obtain ⟨i, hi, hf⟩ := scanDown_some assigneeAt line line.length r h
    show (scanDown assigneeAt (junk ++ line) (junk ++ line).length).isSome = true
    apply scanDown_isSome_of assigneeAt (junk ++ line) (junk ++ line).length
      (junk.length + i) r
    · simp only [List.length_append]
      omega
    · rw [drop_len_add junk line i]
      exact hf

/-- C9 witness: the per-line fact at the text hit by the assignee matcher,
the anchoring fact at a concrete theme line, and the mid-line tolerance at
a concrete assignee line with junk prepended. -/
theorem line_matching_semantics_witness :
    (∃ l, l ∈ splitNl cBothText.data ∧
        assigneeMatchLine l = some ("A".data, "Petrov Vladimir".data)) ∧
    (∃ rest, cThemeLine.data = themeLit ++ rest) ∧
    (assigneeMatchLine ("zz".data ++ cPLine.data)).isSome = true := by
  refine ⟨?_, ?_, ?_⟩
  · exact line_matching_semantics.1 cBothText _ (by decide)
  · exact line_matching_semantics.2.2.1 cThemeLine.data ("T".data, "5".data) (by decide)
  · exact line_matching_semantics.2.2.2 "zz".data cPLine.data
      ("A".data, "Petrov Vladimir".data) (by decide)

/-! Step lemmas for the dispatch loop, used to evaluate concrete runs. -/

theorem mainLoop_skip (world : String → SendOutcome) (decode : List Nat → String → String)
    (fetch : Nat → Option PyMessage) (maxUid uid : Nat) (rest : List Nat)
    (h : uid ≤ maxUid) :
    mainLoop world decode fetch maxUid (uid :: rest) =
      mainLoop world decode fetch maxUid rest := by
  simp only [mainLoop, if_pos h]

theorem mainLoop_fail (world : String → SendOutcome) (decode : List Nat → String → String)
    (fetch : Nat → Option PyMessage) (maxUid uid : Nat) (rest : List Nat)
    (h1 : ¬ uid ≤ maxUid) (h2 : fetch uid = none) :
    mainLoop world decode fetch maxUid (uid :: rest) =
      (mainLoop world decode fetch uid rest).map (fun r => (r.1, uid :: r.2.1, r.2.2)) := by
  simp only [mainLoop, if_neg h1, h2]

theorem mainLoop_fetch (world : String → SendOutcome) (decode : List Nat → String → String)
    (fetch : Nat → Option PyMessage) (maxUid uid : Nat) (rest : List Nat)
    (msg : PyMessage) (h1 : ¬ uid ≤ maxUid) (h2 : fetch uid = some msg) :
    mainLoop world decode fetch maxUid (uid :: rest) =
      match processMessage world (TextBlocksParser.parse decode msg) with
      | .error e => .error e
      | .ok snt =>
        (mainLoop world decode fetch uid rest).map
          (fun r => (r.1, uid :: r.2.1, snt ++ r.2.2)) := by
  simp only [mainLoop, if_neg h1, h2]

/-- C2 counterexample: a network-level failure (`URLError`) inside
`Slack.send` is not caught - the call does not return normally. -/
theorem slack_send_counterexample :
    Slack.send cWorldBad "boom" = Except.error PyExn.urlError ∧
    Slack.send cWorldBad "boom" ≠ Except.ok () := by
  constructor
  · rfl
  · intro h
    simp [Slack.send, cWorldBad] at h

/-- C2 (amended): an `HTTPError` (non-2xx response) is caught and logged
inside `send` and the call returns normally, but a network-level failure
(`URLError`) propagates to the caller; in a run where the webhook fails at
network level, the dispatch loop aborts and the watermark is never
persisted. -/
theorem slack_send_error_handling :
    (∀ (w : String → SendOutcome) (m : String), w m = SendOutcome.httpError →
        Slack.send w m = Except.ok ()) ∧
    (∀ (w : String → SendOutcome) (m : String), w m = SendOutcome.urlError →
        Slack.send w m = Except.error PyExn.urlError) ∧
    mainRun cWorldBad cDecode1 cFetch1 0 [1] = Except.error PyExn.urlError := by
  refine ⟨?_, ?_, ?_⟩
  · intro w m h
    simp [Slack.send, h]
  · intro w m h
    simp [Slack.send, h]
  · show mainLoop cWorldBad cDecode1 cFetch1 0 [1] = Except.error PyExn.urlError
    rw [mainLoop_fetch cWorldBad cDecode1 cFetch1 0 1 [] cMsg1 (by decide) rfl]
    rw [parse_cMsg1]
    rfl

/-- C2 witness: a non-2xx response is swallowed, a network failure is not. -/
theorem slack_send_error_handling_witness :
    Slack.send cWorldHttp "x" = Except.ok () ∧
    Slack.send cWorldBad "x" = Except.error PyExn.urlError :=
  ⟨slack_send_error_handling.1 cWorldHttp "x" rfl,
   slack_send_error_handling.2.1 cWorldBad "x" rfl⟩

/-- C1 counterexample: one fetched message with two html fragments, each
hit by a matcher, produces two notifications - the loop does not stop
scanning fragments after the first event. -/
theorem multiple_notifications_counterexample :
    mainRun cWorldOk cDecode1 cFetch1 0 [1] = Except.ok (1, [1], [cNotif1, cNotif1]) ∧
    ¬ ([cNotif1, cNotif1].length ≤ 1) := by
  refine ⟨?_, by decide⟩
  show mainLoop cWorldOk cDecode1 cFetch1 0 [1] = _
  rw [mainLoop_fetch cWorldOk cDecode1 cFetch1 0 1 [] cMsg1 (by decide) rfl]
  rw [parse_cMsg1]
  rfl

/-- C1 (amended): the fragment loop of `main` does not stop at the first
event: as long as no send raises, it dispatches one notification per
fragment whose text starts with "<html" and whose matcher run returns a
truthy result, so a message can produce several notifications. -/
theorem dispatch_per_fragment (world : String → SendOutcome)
    (frags : List (String × String)) (h : ∀ t, world t ≠ SendOutcome.urlError) :
    processMessage world (frags, none) = Except.ok (dispatchedNotifs frags) := by
  show (match processFrags world frags with
    | .error e => Except.error e
    | .ok l =>
      match (none : Option PyExn) with
      | some e => Except.error e
      | none => Except.ok l) = _
  rw [processFrags_ok world h frags]

/-- C1 witness: both html fragments of the counterexample message get
their own dispatched notification. -/
theorem dispatch_per_fragment_witness :
    processMessage cWorldOk ([("1", cHtmlText), ("2", cHtmlText)], none) =
      Except.ok [cNotif1, cNotif1] := by
  rw [dispatch_per_fragment cWorldOk [("1", cHtmlText), ("2", cHtmlText)]
    (fun t h => SendOutcome.noConfusion h)]
  rfl

/-- C3: with watermark 100 and batch [98, 101, 105], the loop skips 98,
attempts the fetch of exactly 101 and 105, and the run persists 105 - also
when the fetch of 101 raises (`cFetch3 101 = none`), and even when every
fetch raises, because the watermark candidate is set to the uid before the
fetch is attempted. -/
theorem watermark_advance_scenario :
    cFetch3 101 = none ∧
    mainRun cWorldOk cDecode0 cFetch3 100 [98, 101, 105] =
      Except.ok (105, [101, 105], []) ∧
    mainRun cWorldOk cDecode0 cFetchNone 100 [98, 101, 105] =
      Except.ok (105, [101, 105], []) := by
  refine ⟨rfl, ?_, by rfl⟩
  show mainLoop cWorldOk cDecode0 cFetch3 100 [98, 101, 105] = _
  rw [mainLoop_skip cWorldOk cDecode0 cFetch3 100 98 [101, 105] (by decide)]
  rw [mainLoop_fail cWorldOk cDecode0 cFetch3 100 101 [105] (by decide) rfl]
  rw [mainLoop_fetch cWorldOk cDecode0 cFetch3 101 105 [] (PyMessage.multipart [])
    (by decide) rfl]
  rw [parse_mpnil]
  rfl

/-- C4: the walker crashes on every non-multipart text message: the source
enqueues `msg.get_payload()` - a str - and then calls
`get_content_maintype()` on it, raising `AttributeError` before any
fragment is yielded; in `main` this exception is not caught, so the run
aborts and no watermark is saved. -/
theorem walker_crash_on_non_multipart :
    (∀ (d : List Nat → String → String) (cs : Option String) (b : List Nat),
        TextBlocksParser.parse d (PyMessage.leaf "text" cs b) =
          ([], some PyExn.attributeError)) ∧
    mainRun cWorldOk cDecode0 cFetch4 0 [7] = Except.error PyExn.attributeError := by
  refine ⟨fun d cs b => parse_leaf d "text" cs b, ?_⟩
  show mainLoop cWorldOk cDecode0 cFetch4 0 [7] = _
  rw [mainLoop_fetch cWorldOk cDecode0 cFetch4 0 7 []
    (PyMessage.leaf "text" (some "utf-8") [104, 105]) (by decide) rfl]
  rw [parse_leaf]
  rfl

/-- C5: on a multipart message with children [text, multipart [text, text]]
the walker yields exactly three fragments, in the order of paths "1",
"2.1", "2.2", each decoded with its declared charset (default utf-8). -/
theorem walker_multipart_order (d : List Nat → String → String)
    (cs1 cs2 cs3 : Option String) (b1 b2 b3 : List Nat) :
    TextBlocksParser.parse d (PyMessage.multipart [PyMessage.leaf "text" cs1 b1,
        PyMessage.multipart [PyMessage.leaf "text" cs2 b2, PyMessage.leaf "text" cs3 b3]]) =
      ([("1", d b1 (cs1.getD "utf-8")), ("2.1", d b2 (cs2.getD "utf-8")),
        ("2.2", d b3 (cs3.getD "utf-8"))], none) := by
  show walk d [("1", PyObj.pymsg (PyMessage.leaf "text" cs1 b1)),
    ("2", PyObj.pymsg (PyMessage.multipart
      [PyMessage.leaf "text" cs2 b2, PyMessage.leaf "text" cs3 b3]))] = _
  rw [walk_text]
  rw [walk_multi]
  rw [show ([] : List (String × PyObj)) ++ childEntries "2" 1
      [PyMessage.leaf "text" cs2 b2, PyMessage.leaf "text" cs3 b3] =
    [("2.1", PyObj.pymsg (PyMessage.leaf "text" cs2 b2)),
     ("2.2", PyObj.pymsg (PyMessage.leaf "text" cs3 b3))] from rfl]
  rw [walk_text, walk_text, walk_nil]

/-- C10: the fragment loop of `main` consults the matchers only on
fragments whose text starts with "<html": processing a fragment list is
the same as processing its html-prefixed sublist; a fragment whose text a
matcher would hit but which lacks the prefix is skipped and produces no
notification. -/
theorem html_only_fragments (world : String → SendOutcome)
    (frags : List (String × String)) (e : Option PyExn) :
    processMessage world (frags, e) =
      processMessage world (frags.filter (fun pt => pyStartsWith pt.2 htmlLit), e) ∧
    MailParser.parse cNoHtmlText = some "Merged None None" ∧
    processMessage cWorldOk ([("1", cNoHtmlText)], none) = Except.ok [] := by
  refine ⟨?_, by decide, by rfl⟩
  show (match processFrags world frags with
    | .error e2 => Except.error e2
    | .ok l =>
      match e with
      | some e2 => Except.error e2
      | none => Except.ok l) = _
  rw [processFrags_filter world frags]
  rfl
